import Mathlib

/-!
Shallow embedding of the pregnancy dating engine from
src/lib/utils/pregnancy-calculator.ts (pure functions only).

Modelling choices:
- A calendar date is an integer day number (days since 1970-01-01).
  date-fns add / sub with a day count is integer addition / subtraction;
  differenceInDays a b is the integer a - b; add with weeks w and days d
  adds 7*w + d.
- The evaluation instant (new Date() in the source, read once per call)
  is passed explicitly as an integer day number named today.
- A nullable or possibly invalid input Date (null, undefined, or a Date
  whose getTime() is NaN) is an Option Int; none covers all the absent or
  invalid cases, which the source treats identically.
- JavaScript Math.floor (x / 7) on integers is Int.fdiv x 7 (rounding
  toward negative infinity); the percent operator on a non-negative
  integer is Int.emod; Math.abs is Int natAbs cast back, written |x|.
- date-fns format with the patterns MMM d, MMM d yyyy and yyyy-MM-dd is
  embedded through the standard civil-from-days Gregorian conversion.
-/

/-- Gregorian calendar conversion: day number (days since 1970-01-01) to
(year, month, day), the standard civil-from-days algorithm used by date
libraries. -/
def civilFromDays (z : Int) : Int × Int × Int :=
  let z' := z + 719468
  let era := Int.fdiv z' 146097
  let doe := z' - era * 146097
  let yoe := Int.fdiv (doe - Int.fdiv doe 1460 + Int.fdiv doe 36524 - Int.fdiv doe 146096) 365
  let y := yoe + era * 400
  let doy := doe - (365 * yoe + Int.fdiv yoe 4 - Int.fdiv yoe 100)
  let mp := Int.fdiv (5 * doy + 2) 153
  let d := doy - Int.fdiv (153 * mp + 2) 5 + 1
  let m := mp + (if mp < 10 then 3 else -9)
  (y + (if m ≤ 2 then 1 else 0), m, d)

/-- Gregorian calendar conversion: (year, month, day) to day number, the
standard days-from-civil algorithm. Used only to build concrete dates in
witnesses. -/
def daysFromCivil (y m d : Int) : Int :=
  let y' := y - (if m ≤ 2 then 1 else 0)
  let era := Int.fdiv y' 400
  let yoe := y' - era * 400
  let mp := m + (if 2 < m then -3 else 9)
  let doy := Int.fdiv (153 * mp + 2) 5 + d - 1
  let doe := yoe * 365 + Int.fdiv yoe 4 - Int.fdiv yoe 100 + doy
  era * 146097 + doe - 719468

/-- Three-letter English month abbreviation, as produced by the MMM
pattern of date-fns in the fixed en-US locale. -/
def monthAbbr (m : Int) : String :=
  if m = 1 then "Jan" else if m = 2 then "Feb" else if m = 3 then "Mar"
  else if m = 4 then "Apr" else if m = 5 then "May" else if m = 6 then "Jun"
  else if m = 7 then "Jul" else if m = 8 then "Aug" else if m = 9 then "Sep"
  else if m = 10 then "Oct" else if m = 11 then "Nov" else "Dec"

/-- Zero-pad to two digits, as the MM and dd patterns do. -/
def pad2 (n : Int) : String :=
  if n < 10 then "0" ++ toString n else toString n

/-- Zero-pad to four digits, as the yyyy pattern does. -/
def pad4 (n : Int) : String :=
  if n < 10 then "000" ++ toString n
  else if n < 100 then "00" ++ toString n
  else if n < 1000 then "0" ++ toString n
  else toString n

/-- format(date, MMM d) of date-fns. -/
def formatMMMd (z : Int) : String :=
  let c := civilFromDays z
  monthAbbr c.2.1 ++ " " ++ toString c.2.2

/-- format(date, MMM d, yyyy) of date-fns. -/
def formatMMMdY (z : Int) : String :=
  let c := civilFromDays z
  monthAbbr c.2.1 ++ " " ++ toString c.2.2 ++ ", " ++ pad4 c.1

/-- format(date, yyyy-MM-dd) of date-fns, used by the source for its
same-calendar-day test. -/
def formatYMD (z : Int) : String :=
  let c := civilFromDays z
  pad4 c.1 ++ "-" ++ pad2 c.2.1 ++ "-" ++ pad2 c.2.2

/-- interface Milestone of the source; startDays and endDays are the
optional fields. -/
structure Milestone where
  name : String
  startWeeks : Int
  startDays : Option Int
  endWeeks : Int
  endDays : Option Int
deriving DecidableEq, Repr

/-- Fixed milestone catalog pregnancyMilestones of the source. -/
def pregnancyMilestones : List Milestone :=
  [ { name := "Blood Screening", startWeeks := 10, startDays := none,
      endWeeks := 13, endDays := some 6 },
    { name := "First Fetal Heart Tones by Doppler", startWeeks := 11, startDays := none,
      endWeeks := 12, endDays := none },
    { name := "NT scan window", startWeeks := 11, startDays := some 2,
      endWeeks := 14, endDays := some 2 },
    { name := "Anatomy scan window", startWeeks := 18, startDays := none,
      endWeeks := 21, endDays := none },
    { name := "Typical anatomy scan", startWeeks := 20, startDays := none,
      endWeeks := 20, endDays := none },
    { name := "Glucose screen", startWeeks := 24, startDays := none,
      endWeeks := 28, endDays := none },
    { name := "GBS screen", startWeeks := 35, startDays := none,
      endWeeks := 37, endDays := none },
    { name := "Tdap vaccination", startWeeks := 27, startDays := none,
      endWeeks := 36, endDays := none } ]

/-- The source type of the PregnancyInfo field named source. -/
inductive Source where
  | LMP
  | Ultrasound
  | LMP_CONFIRMED
deriving DecidableEq, Repr

/-- interface PregnancyInfo of the source. -/
structure PregnancyInfo where
  lmpEdd : Int
  ultrasoundEdd : Int
  bestEstimateEdd : Int
  source : Source
  gestationalAgeWeeks : Int
  gestationalAgeDays : Int
  conceptionDate : Int
  trimester : Int
  firstTrimesterEnd : Int
  secondTrimesterEnd : Int
  discrepancyDays : Int
  milestoneDates : List (String × String)
deriving DecidableEq, Repr

/-- function getRedatingThreshold of the source: ACOG redating thresholds
by LMP-based gestational age in completed weeks. -/
def getRedatingThreshold (gaWeeks : Int) : Int :=
  if gaWeeks < 5 then 0
  else if gaWeeks ≤ 8 then 5
  else if gaWeeks ≤ 13 then 7
  else if gaWeeks ≤ 15 then 10
  else if gaWeeks ≤ 21 then 14
  else if gaWeeks ≤ 27 then 21
  else 21

/-- Body of calculatePregnancyFromEdd after its null guard: the record
built from a valid known EDD and the evaluation instant. -/
def mkFromEdd (edd today : Int) : PregnancyInfo :=
  let estimatedLmp := edd - 280
  let currentGaInDays0 := today - estimatedLmp
  let currentGaInDays := if currentGaInDays0 < 0 then 0 else currentGaInDays0
  let gestationalAgeWeeks := Int.fdiv currentGaInDays 7
  let gestationalAgeDays := currentGaInDays % 7
  let firstTrimesterEnd := estimatedLmp + 13 * 7 + 6
  let secondTrimesterEnd := estimatedLmp + 27 * 7 + 6
  let trimester := if today > secondTrimesterEnd then 3
    else if today > firstTrimesterEnd then 2 else 1
  let milestoneDates := pregnancyMilestones.map (fun m =>
    let startDate := estimatedLmp + m.startWeeks * 7 + m.startDays.getD 0
    let endDate := estimatedLmp + m.endWeeks * 7 + m.endDays.getD 0
    let startStr := formatMMMd startDate
    let endStr := formatMMMdY endDate
    let isSameDay := formatYMD startDate == formatYMD endDate
    (m.name, if isSameDay then endStr else startStr ++ " - " ++ endStr))
  let conceptionDate := edd - 266
  { lmpEdd := edd
    ultrasoundEdd := edd
    bestEstimateEdd := edd
    source := Source.Ultrasound
    gestationalAgeWeeks := gestationalAgeWeeks
    gestationalAgeDays := gestationalAgeDays
    conceptionDate := conceptionDate
    trimester := trimester
    firstTrimesterEnd := firstTrimesterEnd
    secondTrimesterEnd := secondTrimesterEnd
    discrepancyDays := 0
    milestoneDates := milestoneDates }

/-- function calculatePregnancyFromEdd of the source (reverse ultrasound
method): null or invalid input yields null, otherwise mkFromEdd. -/
def calculatePregnancyFromEdd (edd : Option Int) (today : Int) : Option PregnancyInfo :=
  match edd with
  | none => none
  | some e => some (mkFromEdd e today)

/-- Body of calculatePregnancyInfo after its null guard: the record built
from a valid LMP date, the optional ultrasound triple and the evaluation
instant. -/
def mkForward (lmp : Int) (ultrasoundDate gaWeeks gaDays : Option Int)
    (today : Int) : PregnancyInfo :=
  let lmpEdd := lmp + 280
  let (bestEstimateEdd, ultrasoundEdd, source, discrepancyDays) :=
    match ultrasoundDate, gaWeeks, gaDays with
    | some usDate, some gw, some gd =>
      let measuredGaInDays := gw * 7 + gd
      let usEdd := usDate + (280 - measuredGaInDays)
      let lmpBasedGaInDays := usDate - lmp
      let disc := |lmpBasedGaInDays - measuredGaInDays|
      let gaWeeksByLmp := Int.fdiv lmpBasedGaInDays 7
      let redatingThreshold := getRedatingThreshold gaWeeksByLmp
      if gaWeeksByLmp ≥ 5 ∧ disc > redatingThreshold then
        (usEdd, usEdd, Source.Ultrasound, disc)
      else
        (lmpEdd, usEdd, Source.LMP_CONFIRMED, disc)
    | _, _, _ => (lmpEdd, lmpEdd, Source.LMP, 0)
  let estimatedLmp := bestEstimateEdd - 280
  let currentGaInDays0 := today - estimatedLmp
  let currentGaInDays := if currentGaInDays0 < 0 then 0 else currentGaInDays0
  let gestationalAgeWeeks := Int.fdiv currentGaInDays 7
  let gestationalAgeDays := currentGaInDays % 7
  let firstTrimesterEnd := estimatedLmp + 13 * 7 + 6
  let secondTrimesterEnd := estimatedLmp + 27 * 7 + 6
  let trimester := if today > secondTrimesterEnd then 3
    else if today > firstTrimesterEnd then 2 else 1
  let milestoneDates := pregnancyMilestones.map (fun m =>
    let startDate := estimatedLmp + m.startWeeks * 7 + m.startDays.getD 0
    let endDate := estimatedLmp + m.endWeeks * 7 + m.endDays.getD 0
    let startStr := formatMMMd startDate
    let endStr := formatMMMdY endDate
    let isSameDay := formatYMD startDate == formatYMD endDate
    (m.name, if isSameDay then endStr else startStr ++ " - " ++ endStr))
  { lmpEdd := lmpEdd
    ultrasoundEdd := ultrasoundEdd
    bestEstimateEdd := bestEstimateEdd
    source := source
    gestationalAgeWeeks := gestationalAgeWeeks
    gestationalAgeDays := gestationalAgeDays
    conceptionDate := estimatedLmp + 2 * 7
    trimester := trimester
    firstTrimesterEnd := firstTrimesterEnd
    secondTrimesterEnd := secondTrimesterEnd
    discrepancyDays := discrepancyDays
    milestoneDates := milestoneDates }

/-- function calculatePregnancyInfo of the source (forward method): null
or invalid LMP yields null, otherwise mkForward. -/
def calculatePregnancyInfo (lmpDate ultrasoundDate gaWeeks gaDays : Option Int)
    (today : Int) : Option PregnancyInfo :=
  match lmpDate with
  | none => none
  | some lmp => some (mkForward lmp ultrasoundDate gaWeeks gaDays today)

/-- Rendering of one milestone catalog entry, the body of the map lambda that
appears verbatim in both source functions, parameterized by the estimated LMP
day number. -/
def milestoneRender (estimatedLmp : Int) (m : Milestone) : String × String :=
  (m.name,
    if formatYMD (estimatedLmp + m.startWeeks * 7 + m.startDays.getD 0) ==
        formatYMD (estimatedLmp + m.endWeeks * 7 + m.endDays.getD 0)
    then formatMMMdY (estimatedLmp + m.endWeeks * 7 + m.endDays.getD 0)
    else formatMMMd (estimatedLmp + m.startWeeks * 7 + m.startDays.getD 0) ++ " - " ++
         formatMMMdY (estimatedLmp + m.endWeeks * 7 + m.endDays.getD 0))

/-- Decision step of the forward path when the full ultrasound triple is
present: source and best-estimate EDD follow the redating condition. -/
lemma mkForward_us_decision (lmp us gw gd t : Int) :
    (mkForward lmp (some us) (some gw) (some gd) t).source =
      (if Int.fdiv (us - lmp) 7 ≥ 5 ∧
          |us - lmp - (gw * 7 + gd)| > getRedatingThreshold (Int.fdiv (us - lmp) 7)
       then Source.Ultrasound else Source.LMP_CONFIRMED) ∧
    (mkForward lmp (some us) (some gw) (some gd) t).bestEstimateEdd =
      (if Int.fdiv (us - lmp) 7 ≥ 5 ∧
          |us - lmp - (gw * 7 + gd)| > getRedatingThreshold (Int.fdiv (us - lmp) 7)
       then us + (280 - (gw * 7 + gd)) else lmp + 280) := by
  by_cases hc : Int.fdiv (us - lmp) 7 ≥ 5 ∧
      |us - lmp - (gw * 7 + gd)| > getRedatingThreshold (Int.fdiv (us - lmp) 7)
  · simp [mkForward, hc]
  · simp [mkForward, hc]

/-- Shared derivation fields of the forward path, expressed through the
authoritative estimated LMP, which is the best-estimate EDD minus 280 days. -/
lemma mkForward_tail (lmp : Int) (usd gw gd : Option Int) (t : Int) :
    (mkForward lmp usd gw gd t).gestationalAgeWeeks =
      Int.fdiv (max 0 (t - ((mkForward lmp usd gw gd t).bestEstimateEdd - 280))) 7 ∧
    (mkForward lmp usd gw gd t).gestationalAgeDays =
      (max 0 (t - ((mkForward lmp usd gw gd t).bestEstimateEdd - 280))) % 7 ∧
    (mkForward lmp usd gw gd t).firstTrimesterEnd =
      (mkForward lmp usd gw gd t).bestEstimateEdd - 280 + 97 ∧
    (mkForward lmp usd gw gd t).secondTrimesterEnd =
      (mkForward lmp usd gw gd t).bestEstimateEdd - 280 + 195 ∧
    (mkForward lmp usd gw gd t).trimester =
      (if (mkForward lmp usd gw gd t).secondTrimesterEnd < t then 3
       else if (mkForward lmp usd gw gd t).firstTrimesterEnd < t then 2 else 1) ∧
    (mkForward lmp usd gw gd t).conceptionDate =
      (mkForward lmp usd gw gd t).bestEstimateEdd - 280 + 14 ∧
    (mkForward lmp usd gw gd t).milestoneDates =
      pregnancyMilestones.map
        (milestoneRender ((mkForward lmp usd gw gd t).bestEstimateEdd - 280)) := by
  rcases usd with _ | us <;> rcases gw with _ | w <;> rcases gd with _ | d
  case some.some.some =>
    by_cases hc : Int.fdiv (us - lmp) 7 ≥ 5 ∧
        |us - lmp - (w * 7 + d)| > getRedatingThreshold (Int.fdiv (us - lmp) 7) <;>
      (refine ⟨?_, ?_, ?_, ?_, ?_, ?_, ?_⟩ <;>
        simp [mkForward, milestoneRender, hc] <;>
        first | rfl | omega | (congr 1 <;> omega))
  all_goals
    refine ⟨?_, ?_, ?_, ?_, ?_, ?_, ?_⟩ <;>
      simp [mkForward, milestoneRender] <;>
      first | rfl | omega | (congr 1 <;> omega)

/-- Shared derivation fields of the reverse path, expressed through the
estimated LMP, which is the known EDD minus 280 days. -/
lemma mkFromEdd_tail (e t : Int) :
    (mkFromEdd e t).gestationalAgeWeeks = Int.fdiv (max 0 (t - (e - 280))) 7 ∧
    (mkFromEdd e t).gestationalAgeDays = (max 0 (t - (e - 280))) % 7 ∧
    (mkFromEdd e t).firstTrimesterEnd = e - 280 + 97 ∧
    (mkFromEdd e t).secondTrimesterEnd = e - 280 + 195 ∧
    (mkFromEdd e t).trimester =
      (if (mkFromEdd e t).secondTrimesterEnd < t then 3
       else if (mkFromEdd e t).firstTrimesterEnd < t then 2 else 1) ∧
    (mkFromEdd e t).conceptionDate = e - 266 ∧
    (mkFromEdd e t).milestoneDates = pregnancyMilestones.map (milestoneRender (e - 280)) := by
  refine ⟨?_, ?_, ?_, ?_, ?_, ?_, ?_⟩ <;>
    simp [mkFromEdd, milestoneRender] <;>
    first | rfl | omega | (congr 1 <;> omega)

/-- C2: the redating-threshold lookup is a pure total function of completed
weeks returning exactly the guideline bands; totality is by construction
(every branch of getRedatingThreshold returns a value). -/
theorem getRedatingThreshold_bands (w : Int) (h : 0 ≤ w) :
    (w < 5 → getRedatingThreshold w = 0) ∧
    (5 ≤ w ∧ w ≤ 8 → getRedatingThreshold w = 5) ∧
    (9 ≤ w ∧ w ≤ 13 → getRedatingThreshold w = 7) ∧
    (14 ≤ w ∧ w ≤ 15 → getRedatingThreshold w = 10) ∧
    (16 ≤ w ∧ w ≤ 21 → getRedatingThreshold w = 14) ∧
    (22 ≤ w ∧ w ≤ 27 → getRedatingThreshold w = 21) ∧
    (28 ≤ w → getRedatingThreshold w = 21) := by
  unfold getRedatingThreshold
  refine ⟨?_, ?_, ?_, ?_, ?_, ?_, ?_⟩ <;> intro hw <;> split_ifs <;> omega

/-- Witness for C2 at completed week 9. -/
theorem getRedatingThreshold_bands_witness : getRedatingThreshold 9 = 7 :=
  (getRedatingThreshold_bands 9 (by decide)).2.2.1 ⟨by decide, by decide⟩

/-- C8: each entry point returns null exactly when its primary date input is
absent or invalid (modelled as none), and otherwise a complete record; both
functions are total, so no exception is ever thrown. -/
theorem calc_none_iff (lmpDate ultrasoundDate gaWeeks gaDays edd : Option Int) (today : Int) :
    (calculatePregnancyInfo lmpDate ultrasoundDate gaWeeks gaDays today = none ↔ lmpDate = none) ∧
    (calculatePregnancyFromEdd edd today = none ↔ edd = none) := by
  constructor
  · cases lmpDate <;> simp [calculatePregnancyInfo]
  · cases edd <;> simp [calculatePregnancyFromEdd]

/-- Witness for C8: null propagates on the forward path, and a concrete valid
EDD yields a non-null result. -/
theorem calc_none_iff_witness :
    calculatePregnancyInfo none none none none 0 = none ∧
    calculatePregnancyFromEdd (some 0) 0 ≠ none :=
  ⟨(calc_none_iff none none none none none 0).1.mpr rfl,
   fun h => nomatch (calc_none_iff none none none none (some 0) 0).2.mp h⟩

/-- C3: for every valid known EDD, the reverse path returns lmpEdd =
ultrasoundEdd = bestEstimateEdd = the given EDD, source Ultrasound,
discrepancyDays 0, conceptionDate = EDD minus 266 days, and all shared
derived fields (gestational age, trimester cutoffs, milestones) computed
from the estimated LMP, which is the EDD minus 280 days. -/
theorem calculatePregnancyFromEdd_spec (e t : Int) :
    calculatePregnancyFromEdd (some e) t = some
      { lmpEdd := e
        ultrasoundEdd := e
        bestEstimateEdd := e
        source := Source.Ultrasound
        gestationalAgeWeeks := Int.fdiv (max 0 (t - (e - 280))) 7
        gestationalAgeDays := (max 0 (t - (e - 280))) % 7
        conceptionDate := e - 266
        trimester := if e - 280 + 195 < t then 3 else if e - 280 + 97 < t then 2 else 1
        firstTrimesterEnd := e - 280 + 97
        secondTrimesterEnd := e - 280 + 195
        discrepancyDays := 0
        milestoneDates := pregnancyMilestones.map (milestoneRender (e - 280)) } := by
  simp only [calculatePregnancyFromEdd, mkFromEdd, milestoneRender, Option.some.injEq,
    PregnancyInfo.mk.injEq]
  norm_num
  repeat' apply And.intro
  all_goals
    first
    | omega
    | (congr 1 <;> omega)
    | (split_ifs <;> omega)
    | (intro a ha; simp [milestoneRender])

/-- Full characterization of the forward path when the ultrasound triple is
not fully present: every field of the result. -/
lemma mkForward_none_spec (lmp t : Int) (usd gw gd : Option Int)
    (h : usd = none ∨ gw = none ∨ gd = none) :
    mkForward lmp usd gw gd t =
      { lmpEdd := lmp + 280
        ultrasoundEdd := lmp + 280
        bestEstimateEdd := lmp + 280
        source := Source.LMP
        gestationalAgeWeeks := Int.fdiv (max 0 (t - lmp)) 7
        gestationalAgeDays := (max 0 (t - lmp)) % 7
        conceptionDate := lmp + 14
        trimester := if lmp + 195 < t then 3 else if lmp + 97 < t then 2 else 1
        firstTrimesterEnd := lmp + 97
        secondTrimesterEnd := lmp + 195
        discrepancyDays := 0
        milestoneDates := pregnancyMilestones.map (milestoneRender lmp) } := by
  rcases usd with _ | us <;> rcases gw with _ | w <;> rcases gd with _ | d <;>
    first
    | (simp [mkForward, PregnancyInfo.mk.injEq]
       try norm_num
       try (repeat' apply And.intro)
       all_goals
         first
         | rfl
         | omega
         | (congr 1 <;> omega)
         | (split_ifs <;> omega)
         | (intro a ha; simp [milestoneRender]; try (congr 1 <;> omega)))
    | (exfalso; rcases h with h | h | h <;> simp at h)

/-- C4: for every valid LMP date whose ultrasound triple is not fully
present (any of the three fields absent, including partial presence), the
forward path returns bestEstimateEdd = ultrasoundEdd = lmpEdd = LMP plus
280 days, source LMP, and discrepancyDays 0. -/
theorem calc_no_ultrasound (lmp t : Int) (usd gw gd : Option Int)
    (h : usd = none ∨ gw = none ∨ gd = none) :
    (calculatePregnancyInfo (some lmp) usd gw gd t).map
        (fun i => (i.bestEstimateEdd, i.ultrasoundEdd, i.lmpEdd, i.source, i.discrepancyDays))
      = some (lmp + 280, lmp + 280, lmp + 280, Source.LMP, 0) := by
  have hs := mkForward_none_spec lmp t usd gw gd h
  simp [calculatePregnancyInfo, hs]

/-- Witness for C4: ultrasound date and weeks present but days absent. -/
theorem calc_no_ultrasound_witness :
    (calculatePregnancyInfo (some 0) (some 56) (some 9) none 100).map
        (fun i => (i.bestEstimateEdd, i.ultrasoundEdd, i.lmpEdd, i.source, i.discrepancyDays))
      = some (280, 280, 280, Source.LMP, 0) :=
  calc_no_ultrasound 0 100 (some 56) (some 9) none (Or.inr (Or.inr rfl))

/-- C10: with the full ultrasound triple present and the ultrasound date
strictly before the LMP date, the forward path always returns source
LMP_CONFIRMED and bestEstimateEdd = lmpEdd, for any measured gestational
age: the floored negative LMP-based day count falls below the 5-week
guard, so the ultrasound estimate can never become authoritative. -/
theorem calc_scan_before_lmp (lmp us gw gd t : Int) (h : us < lmp) :
    (calculatePregnancyInfo (some lmp) (some us) (some gw) (some gd) t).map
        (fun i => (i.source, i.bestEstimateEdd))
      = some (Source.LMP_CONFIRMED, lmp + 280) := by
  have hfd : Int.fdiv (us - lmp) 7 = (us - lmp) / 7 :=
    Int.fdiv_eq_ediv (us - lmp) (by norm_num)
  have hweeks : Int.fdiv (us - lmp) 7 < 5 := by omega
  have hd := mkForward_us_decision lmp us gw gd t
  have hcond : ¬(Int.fdiv (us - lmp) 7 ≥ 5 ∧
      |us - lmp - (gw * 7 + gd)| > getRedatingThreshold (Int.fdiv (us - lmp) 7)) :=
    fun hc => absurd hc.1 (by omega)
  simp [calculatePregnancyInfo, hd.1, hd.2, hcond]

/-- Witness for C10: scan seven days before the LMP date. -/
theorem calc_scan_before_lmp_witness :
    (calculatePregnancyInfo (some 10) (some 3) (some 9) (some 0) 50).map
        (fun i => (i.source, i.bestEstimateEdd))
      = some (Source.LMP_CONFIRMED, 290) :=
  calc_scan_before_lmp 10 3 9 0 50 (by decide)

/-- C5: the forward path with no ultrasound data and the reverse path at
LMP plus 280 days agree on every output field except source, for the same
evaluation instant; the forward source is LMP and the reverse source is
Ultrasound. In particular the two conception date computations (estimated
LMP plus 14 days forward, EDD minus 266 days reverse) coincide. -/
theorem forward_reverse_agree (lmp t : Int) :
    (calculatePregnancyInfo (some lmp) none none none t).map
        (fun i => (i.lmpEdd, i.ultrasoundEdd, i.bestEstimateEdd, i.gestationalAgeWeeks,
          i.gestationalAgeDays, i.conceptionDate, i.trimester, i.firstTrimesterEnd,
          i.secondTrimesterEnd, i.discrepancyDays, i.milestoneDates))
      = (calculatePregnancyFromEdd (some (lmp + 280)) t).map
        (fun i => (i.lmpEdd, i.ultrasoundEdd, i.bestEstimateEdd, i.gestationalAgeWeeks,
          i.gestationalAgeDays, i.conceptionDate, i.trimester, i.firstTrimesterEnd,
          i.secondTrimesterEnd, i.discrepancyDays, i.milestoneDates)) ∧
    (calculatePregnancyInfo (some lmp) none none none t).map (fun i => i.source)
      = some Source.LMP ∧
    (calculatePregnancyFromEdd (some (lmp + 280)) t).map (fun i => i.source)
      = some Source.Ultrasound := by
  have hF := mkForward_none_spec lmp t none none none (Or.inl rfl)
  have hnorm : lmp + 280 - 280 = lmp := by omega
  refine ⟨?_, by simp [calculatePregnancyInfo, hF], by simp [calculatePregnancyFromEdd, mkFromEdd]⟩
  rw [calculatePregnancyFromEdd_spec (lmp + 280) t]
  simp only [calculatePregnancyInfo, hF, hnorm, Option.map_some', Option.some.injEq,
    Prod.mk.injEq]
  repeat' apply And.intro
  all_goals first | trivial | omega | (congr 1 <;> omega) | (split_ifs <;> omega)

/-- C1: with the full ultrasound triple present, the result has source
Ultrasound and bestEstimateEdd = ultrasoundEdd exactly when the LMP-based
completed weeks are at least 5 and the discrepancy strictly exceeds the
band threshold, and otherwise source LMP_CONFIRMED with bestEstimateEdd =
lmpEdd (first conjunct, an if-then-else on that condition, which yields the
biconditional since the two branches have distinct sources); below 5
completed LMP-based weeks the source is never Ultrasound (second
conjunct); and for fixed LMP and ultrasound dates, growing the discrepancy
never flips source from Ultrasound back to LMP_CONFIRMED (third
conjunct). -/
theorem redating_decision (lmp us gw gd t : Int) :
    (calculatePregnancyInfo (some lmp) (some us) (some gw) (some gd) t).map
        (fun i => (i.source, i.bestEstimateEdd))
      = some (if Int.fdiv (us - lmp) 7 ≥ 5 ∧
                 |us - lmp - (gw * 7 + gd)| > getRedatingThreshold (Int.fdiv (us - lmp) 7)
              then (Source.Ultrasound, us + (280 - (gw * 7 + gd)))
              else (Source.LMP_CONFIRMED, lmp + 280)) ∧
    (Int.fdiv (us - lmp) 7 < 5 →
      (calculatePregnancyInfo (some lmp) (some us) (some gw) (some gd) t).map (fun i => i.source)
        ≠ some Source.Ultrasound) ∧
    (∀ gw2 gd2 : Int,
      |us - lmp - (gw * 7 + gd)| ≤ |us - lmp - (gw2 * 7 + gd2)| →
      (calculatePregnancyInfo (some lmp) (some us) (some gw) (some gd) t).map (fun i => i.source)
        = some Source.Ultrasound →
      (calculatePregnancyInfo (some lmp) (some us) (some gw2) (some gd2) t).map (fun i => i.source)
        = some Source.Ultrasound) := by
  refine ⟨?_, ?_, ?_⟩
  · have hd := mkForward_us_decision lmp us gw gd t
    by_cases hc : Int.fdiv (us - lmp) 7 ≥ 5 ∧
        |us - lmp - (gw * 7 + gd)| > getRedatingThreshold (Int.fdiv (us - lmp) 7)
    · simp [calculatePregnancyInfo, hd.1, hd.2, hc]
    · simp [calculatePregnancyInfo, hd.1, hd.2, hc]
  · intro hw
    have hd := mkForward_us_decision lmp us gw gd t
    have hcond : ¬(Int.fdiv (us - lmp) 7 ≥ 5 ∧
        |us - lmp - (gw * 7 + gd)| > getRedatingThreshold (Int.fdiv (us - lmp) 7)) :=
      fun hc => absurd hc.1 (by omega)
    simp [calculatePregnancyInfo, hd.1, hcond]
  · intro gw2 gd2 hle hsrc
    have h1 := (mkForward_us_decision lmp us gw gd t).1
    have h2 := (mkForward_us_decision lmp us gw2 gd2 t).1
    by_cases hc : Int.fdiv (us - lmp) 7 ≥ 5 ∧
        |us - lmp - (gw * 7 + gd)| > getRedatingThreshold (Int.fdiv (us - lmp) 7)
    · have hcond2 : Int.fdiv (us - lmp) 7 ≥ 5 ∧
          |us - lmp - (gw2 * 7 + gd2)| > getRedatingThreshold (Int.fdiv (us - lmp) 7) :=
        ⟨hc.1, lt_of_lt_of_le hc.2 hle⟩
      simp [calculatePregnancyInfo, h2, hcond2]
    · simp [calculatePregnancyInfo, h1, hc] at hsrc

/-- Witness for C1: scan at 56 days by LMP measuring 9w0d gives
discrepancy 7 over threshold 5, so the ultrasound estimate wins, and a
larger measured age keeps it winning. -/
theorem redating_decision_witness :
    (calculatePregnancyInfo (some 0) (some 56) (some 9) (some 0) 100).map
        (fun i => (i.source, i.bestEstimateEdd)) = some (Source.Ultrasound, 273) ∧
    (calculatePregnancyInfo (some 0) (some 56) (some 10) (some 0) 100).map (fun i => i.source)
      = some Source.Ultrasound := by
  have h := redating_decision 0 56 9 0 100
  constructor
  · rw [h.1]; decide
  · exact h.2.2 10 0 (by decide) (by decide)

/-- C6: in every non-null result of either entry point, the gestational
age satisfies weeks * 7 + days = max 0 (today minus estimated LMP), with
weeks the floored quotient by 7 and days the remainder, hence days between
0 and 6; and a future estimated LMP clamps both to zero. The estimated LMP
is recovered from the output as bestEstimateEdd minus 280. -/
theorem ga_invariant (lmp e : Int) (usd gw gd : Option Int) (t : Int) :
    (∀ info, calculatePregnancyInfo (some lmp) usd gw gd t = some info →
      info.gestationalAgeWeeks * 7 + info.gestationalAgeDays
          = max 0 (t - (info.bestEstimateEdd - 280)) ∧
      info.gestationalAgeWeeks = Int.fdiv (max 0 (t - (info.bestEstimateEdd - 280))) 7 ∧
      info.gestationalAgeDays = (max 0 (t - (info.bestEstimateEdd - 280))) % 7 ∧
      0 ≤ info.gestationalAgeDays ∧ info.gestationalAgeDays ≤ 6 ∧
      (t < info.bestEstimateEdd - 280 →
        info.gestationalAgeWeeks = 0 ∧ info.gestationalAgeDays = 0)) ∧
    (∀ info, calculatePregnancyFromEdd (some e) t = some info →
      info.gestationalAgeWeeks * 7 + info.gestationalAgeDays
          = max 0 (t - (info.bestEstimateEdd - 280)) ∧
      info.gestationalAgeWeeks = Int.fdiv (max 0 (t - (info.bestEstimateEdd - 280))) 7 ∧
      info.gestationalAgeDays = (max 0 (t - (info.bestEstimateEdd - 280))) % 7 ∧
      0 ≤ info.gestationalAgeDays ∧ info.gestationalAgeDays ≤ 6 ∧
      (t < info.bestEstimateEdd - 280 →
        info.gestationalAgeWeeks = 0 ∧ info.gestationalAgeDays = 0)) := by
  constructor
  · intro info h
    replace h : some (mkForward lmp usd gw gd t) = some info := h
    obtain rfl := Option.some.inj h
    obtain ⟨t1, t2, -, -, -, -, -⟩ := mkForward_tail lmp usd gw gd t
    have hfd := Int.fdiv_eq_ediv
      (max 0 (t - ((mkForward lmp usd gw gd t).bestEstimateEdd - 280)))
      (by norm_num : (0 : Int) ≤ 7)
    refine ⟨?_, t1, t2, ?_, ?_, ?_⟩
    · rw [t1, t2]; omega
    · rw [t2]; omega
    · rw [t2]; omega
    · intro hfut
      constructor
      · rw [t1]; omega
      · rw [t2]; omega
  · intro info h
    replace h : some (mkFromEdd e t) = some info := h
    obtain rfl := Option.some.inj h
    have hbest : (mkFromEdd e t).bestEstimateEdd = e := by simp [mkFromEdd]
    obtain ⟨t1, t2, -, -, -, -, -⟩ := mkFromEdd_tail e t
    have hfd := Int.fdiv_eq_ediv (max 0 (t - (e - 280))) (by norm_num : (0 : Int) ≤ 7)
    rw [hbest, t1, t2]
    refine ⟨by omega, rfl, rfl, by omega, by omega, fun hfut => ⟨by omega, by omega⟩⟩

/-- Witness for C6 on the forward path at LMP day 0, instant day 100. -/
theorem ga_invariant_witness :
    (mkForward 0 none none none 100).gestationalAgeWeeks * 7
        + (mkForward 0 none none none 100).gestationalAgeDays
      = max 0 (100 - ((mkForward 0 none none none 100).bestEstimateEdd - 280)) :=
  ((ga_invariant 0 0 none none none 100).1 (mkForward 0 none none none 100) rfl).1

/-- C7: in every non-null result of either entry point, the trimester
cutoffs are the estimated LMP plus 13 weeks 6 days (97 days) and plus 27
weeks 6 days (195 days), the trimester is 3 strictly after the second
cutoff, else 2 strictly after the first, else 1; an instant exactly equal
to a cutoff stays in the earlier trimester, and the trimester is always 1,
2 or 3. -/
theorem trimester_spec (lmp e : Int) (usd gw gd : Option Int) (t : Int) :
    (∀ info, calculatePregnancyInfo (some lmp) usd gw gd t = some info →
      info.firstTrimesterEnd = info.bestEstimateEdd - 280 + 97 ∧
      info.secondTrimesterEnd = info.bestEstimateEdd - 280 + 195 ∧
      info.trimester = (if info.secondTrimesterEnd < t then 3
        else if info.firstTrimesterEnd < t then 2 else 1) ∧
      (t = info.firstTrimesterEnd → info.trimester = 1) ∧
      (t = info.secondTrimesterEnd → info.trimester = 2) ∧
      (info.trimester = 1 ∨ info.trimester = 2 ∨ info.trimester = 3)) ∧
    (∀ info, calculatePregnancyFromEdd (some e) t = some info →
      info.firstTrimesterEnd = info.bestEstimateEdd - 280 + 97 ∧
      info.secondTrimesterEnd = info.bestEstimateEdd - 280 + 195 ∧
      info.trimester = (if info.secondTrimesterEnd < t then 3
        else if info.firstTrimesterEnd < t then 2 else 1) ∧
      (t = info.firstTrimesterEnd → info.trimester = 1) ∧
      (t = info.secondTrimesterEnd → info.trimester = 2) ∧
      (info.trimester = 1 ∨ info.trimester = 2 ∨ info.trimester = 3)) := by
  constructor
  · intro info h
    replace h : some (mkForward lmp usd gw gd t) = some info := h
    obtain rfl := Option.some.inj h
    obtain ⟨-, -, t3, t4, t5, -, -⟩ := mkForward_tail lmp usd gw gd t
    refine ⟨t3, t4, t5, ?_, ?_, ?_⟩
    · intro ht; rw [t5, t3, t4]; rw [t3] at ht; split_ifs <;> omega
    · intro ht; rw [t5, t3, t4]; rw [t4] at ht; split_ifs <;> omega
    · rw [t5]; split_ifs <;> simp
  · intro info h
    replace h : some (mkFromEdd e t) = some info := h
    obtain rfl := Option.some.inj h
    have hbest : (mkFromEdd e t).bestEstimateEdd = e := by simp [mkFromEdd]
    obtain ⟨-, -, t3, t4, t5, -, -⟩ := mkFromEdd_tail e t
    rw [hbest]
    refine ⟨t3, t4, t5, ?_, ?_, ?_⟩
    · intro ht; rw [t5, t3, t4]; rw [t3] at ht; split_ifs <;> omega
    · intro ht; rw [t5, t3, t4]; rw [t4] at ht; split_ifs <;> omega
    · rw [t5]; split_ifs <;> simp

/-- Witness for C7: at the instant exactly equal to the first trimester
cutoff the trimester is still 1. -/
theorem trimester_spec_witness :
    (mkForward 0 none none none 97).trimester = 1 := by
  have h := (trimester_spec 0 0 none none none 97).1 (mkForward 0 none none none 97) rfl
  exact h.2.2.2.1 (by decide)

/-- C9: in every non-null forward result, each milestone entry renders as
the single end date in MMM d, yyyy style when start and end fall on the
same calendar day (the yyyy-MM-dd renderings coincide), and otherwise as
the inclusive range of the start in MMM d style and the end in MMM d, yyyy
style; in particular the Typical anatomy scan entry, whose start and end
offsets are both 20 weeks (140 days), renders as a single date. -/
theorem milestone_dates_spec (lmp : Int) (usd gw gd : Option Int) (t : Int) :
    ∀ info, calculatePregnancyInfo (some lmp) usd gw gd t = some info →
      info.milestoneDates = pregnancyMilestones.map (fun m =>
        (m.name,
          if formatYMD (info.bestEstimateEdd - 280 + m.startWeeks * 7 + m.startDays.getD 0) ==
              formatYMD (info.bestEstimateEdd - 280 + m.endWeeks * 7 + m.endDays.getD 0)
          then formatMMMdY (info.bestEstimateEdd - 280 + m.endWeeks * 7 + m.endDays.getD 0)
          else formatMMMd (info.bestEstimateEdd - 280 + m.startWeeks * 7 + m.startDays.getD 0)
            ++ " - " ++
            formatMMMdY (info.bestEstimateEdd - 280 + m.endWeeks * 7 + m.endDays.getD 0))) ∧
      info.milestoneDates[4]? =
        some ("Typical anatomy scan", formatMMMdY (info.bestEstimateEdd - 280 + 140)) := by
  intro info h
  replace h : some (mkForward lmp usd gw gd t) = some info := h
  obtain rfl := Option.some.inj h
  obtain ⟨-, -, -, -, -, -, t7⟩ := mkForward_tail lmp usd gw gd t
  rw [t7]
  constructor
  · rfl
  · simp only [pregnancyMilestones, List.map_cons, List.map_nil, milestoneRender]
    norm_num

/-- Witness for C9: the fifth catalog entry at LMP day 0 renders as a
single date with no range separator. -/
theorem milestone_dates_spec_witness :
    (mkForward 0 none none none 100).milestoneDates[4]? =
      some ("Typical anatomy scan", "May 21, 1970") := by
  have h := (milestone_dates_spec 0 none none none 100 (mkForward 0 none none none 100) rfl).2
  rw [h]
  decide
